import Mathlib

/-!
Shallow embedding of `src/app.py` (the video relay worker): the `/mux-upload`
handler `mux_upload` together with its helpers `_preflight_info`,
`_ffprobe_duration` and `_short_id`.

External effects (the yt-dlp probe, the yt-dlp download, ffprobe, the ffmpeg
trim, `os.path.getsize`, the Cloudinary upload, `random.choice`, `uuid.uuid4`)
are modelled by an oracle structure `World` that fixes the outcome of each
call.  The handler is embedded as a pure function from the configuration, the
request payload, the world and the `X-Token` header to the HTTP result, the
list of external-tool invocations performed, and the temporary files that
remain on disk when the handler returns.
-/

namespace VideoWorker

/-- Python truthiness-based `a or b` on optional strings: `None` and the empty
string are falsy (models `payload.get(x) or payload.get(y)` in app.py). -/
def pyOrS (a b : Option String) : Option String :=
  match a with
  | some s => if s = "" then b else some s
  | none => b

/-- Python `f"{v}"` on an optional string: `None` prints as the four-character
string `"None"` (relevant for the temp-file names built from `thread_id`). -/
def pyStr : Option String → String
  | none => "None"
  | some s => s

/-- Characters removed by Python `str.strip()` (ASCII whitespace). -/
def pySpace (c : Char) : Bool :=
  c = ' ' || c = '\t' || c = '\n' || c = '\r'

/-- Python `str.strip()`. -/
def strip (s : String) : String :=
  String.mk (((s.toList.dropWhile pySpace).reverse.dropWhile pySpace).reverse)

/-- Auxiliary for `startsWithPy`: does the second list begin with the first. -/
def leadMatches : List Char → List Char → Bool
  | [], _ => true
  | _ :: _, [] => false
  | a :: as, b :: bs => a = b && leadMatches as bs

/-- Python `s.startswith(pat)`. -/
def startsWithPy (s pat : String) : Bool :=
  leadMatches pat.toList s.toList

/-- Python slicing `s[:n]` (by characters; models `res.text[:200]`). -/
def takeChars (n : Nat) (s : String) : String :=
  String.mk (s.toList.take n)

/-- Environment configuration of app.py (lines 6-10): `CLD_NAME`,
`CLD_UNSIGNED_PRESET`, `WORKER_TOKEN`, `MAX_DURATION_SEC`, `MAX_BYTES`. -/
structure Config where
  cld_name : String := "cld"
  cld_preset : String := "preset"
  worker_token : String := ""
  max_duration_s : Int := 300
  max_bytes : Int := 0
deriving DecidableEq, Repr

/-- The JSON request body, restricted to the string-valued fields the handler
reads (`payload.get(...)` for each accepted alias); `none` models an absent
key. -/
structure Payload where
  thread_id : Option String := none
  reddit_id : Option String := none
  vredd_url : Option String := none
  video_url_clean : Option String := none
  video_url : Option String := none
deriving DecidableEq, Repr

/-- The parsed yt-dlp metadata dict used by the handler: the `duration`,
`formats` and `url` entries (only their truthiness and the duration value are
consumed). -/
structure Info where
  duration : Option Rat := none
  hasFormats : Bool := false
  hasUrl : Bool := false
deriving DecidableEq, Repr

/-- Outcome of the yt-dlp download invocation (app.py line 140): success, or a
`CalledProcessError` carrying the stringified error, with a flag telling
whether a (partial) output file was created before the tool failed. -/
inductive FetchOutcome where
  | ok : FetchOutcome
  | err (createdFile : Bool) (msg : String) : FetchOutcome
deriving DecidableEq, Repr

/-- The Cloudinary HTTP response: status code, body text, whether
`res.json()` parses, and the `public_id` / `secure_url` entries of the parsed
JSON. -/
structure UploadHttp where
  status : Nat := 200
  text : String := ""
  jsonOk : Bool := true
  public_id : Option String := none
  secure_url : Option String := none
deriving DecidableEq, Repr

/-- Outcome of the `requests.post` upload (app.py lines 196-201): a
`RequestException` (type name and text) or an HTTP response. -/
inductive UploadOutcome where
  | transportErr (ename etext : String) : UploadOutcome
  | resp (r : UploadHttp) : UploadOutcome
deriving DecidableEq, Repr

/-- Oracle fixing the outcome of every external effect of one request. -/
structure World where
  /-- result of `_preflight_info`: `none` models the empty dict `{}`. -/
  preflight : Option Info := none
  /-- outcome of the yt-dlp download. -/
  fetch : FetchOutcome := FetchOutcome.ok
  /-- raw duration parsed by `_ffprobe_duration` (`none` = tool failure or
  missing field, which the code turns into `0`). -/
  ffprobeRaw : Option Rat := none
  /-- whether the ffmpeg trim succeeds. -/
  trimOk : Bool := true
  /-- stringified `CalledProcessError` of a failed trim. -/
  trimErrMsg : String := ""
  /-- result of `os.path.getsize` on the upload candidate; `none` models an
  exception. -/
  getsize : Option Nat := none
  /-- whether `open(out_for_upload, "rb")` (app.py line 194) succeeds; an
  `OSError` here is not a `RequestException`, so it escapes to the catch-all
  before the POST is ever issued. -/
  openOk : Bool := true
  /-- exception type name raised by a failing `open`. -/
  openErrName : String := ""
  /-- exception text raised by a failing `open`. -/
  openErrText : String := ""
  /-- outcome of the Cloudinary upload. -/
  upload : UploadOutcome := UploadOutcome.resp {}
  /-- exception type name raised by `res.json()` when it fails. -/
  jsonErrName : String := ""
  /-- exception text raised by `res.json()` when it fails. -/
  jsonErrText : String := ""
  /-- stream of `random.choice` draws used by `_short_id`. -/
  rand : Nat → Nat := fun _ => 0
  /-- value of `str(uuid.uuid4())` in the catch-all handler. -/
  uuid : String := "u"

/-- External-tool / network invocations the handler can perform, recorded in
order. -/
inductive ExtCall where
  | preflightCall (url : String) : ExtCall
  | fetchCall (url : String) (dest : String) : ExtCall
  | ffprobeCall (path : String) : ExtCall
  | trimCall (src dst : String) (cap : Int) : ExtCall
  | getsizeCall (path : String) : ExtCall
  | uploadCall (url : String) (preset : String) (publicId : String) (file : String) : ExtCall
deriving DecidableEq, Repr

/-- A Python exception escaping the handler body: a FastAPI `HTTPException`
(re-raised by the outer handler) or any other exception (caught by the
catch-all). -/
inductive PyExn where
  | httpExc (status : Nat) (detail : String) : PyExn
  | exn (ename etext : String) : PyExn
deriving DecidableEq, Repr

/-- Response bodies returned by the handler: the error shape
`{thread_id, source_url, error:{message}, video_url_clean}` or the success
shape `{thread_id, source_url, public_id, secure_url, thumb_url}`. -/
inductive Resp where
  | err (thread_id : Option String) (source_url : String) (msg : String)
      (video_url_clean : String) : Resp
  | ok (thread_id : Option String) (source_url : String) (public_id : Option String)
      (secure_url : Option String) (thumb_url : Option String) : Resp
deriving DecidableEq, Repr

/-- The `thread_id` field of a response body. -/
def respThreadId : Resp → Option String
  | Resp.err tid _ _ _ => tid
  | Resp.ok tid _ _ _ _ => tid

/-- The `source_url` field of a response body. -/
def respSourceUrl : Resp → String
  | Resp.err _ su _ _ => su
  | Resp.ok _ su _ _ _ => su

/-- The `error.message` field of a response body, when present. -/
def respErrMsg : Resp → Option String
  | Resp.err _ _ m _ => some m
  | Resp.ok _ _ _ _ _ => none

/-- What the endpoint produces at the HTTP level: a non-200 `HTTPException`
status or a 200 response with a JSON body. -/
inductive HResult where
  | httpErr (status : Nat) (detail : String) : HResult
  | body (b : Resp) : HResult
deriving DecidableEq, Repr

/-- Result of the code inside the outer `try` (app.py lines 96-247): a
returned body or an escaping exception, plus the external calls made and the
temp files still on disk. -/
structure InnerOut where
  res : Except PyExn Resp
  calls : List ExtCall
  files : List String
deriving Repr

/-- Full observable outcome of one request. -/
structure Run where
  result : HResult
  calls : List ExtCall
  files : List String
deriving Repr

/-- Models `tempfile.gettempdir()`. -/
def tmpdir : String := "/tmp"

/-- Line 127 of app.py: `os.path.join(tempfile.gettempdir(), f"{rid}.mp4")`. -/
def outPath (p : Payload) : String :=
  tmpdir ++ "/" ++ pyStr p.thread_id ++ ".mp4"

/-- Line 128 of app.py: `os.path.join(tempfile.gettempdir(), f"{rid}.cut.mp4")`. -/
def trimmedPath (p : Payload) : String :=
  tmpdir ++ "/" ++ pyStr p.thread_id ++ ".cut.mp4"

/-- Line 101 of app.py: resolution of the source URL through the alias chain
`vredd_url or video_url_clean or video_url or ""` followed by `.strip()`. -/
def resolveVredd (p : Payload) : String :=
  strip ((pyOrS (pyOrS p.vredd_url p.video_url_clean) p.video_url).getD "")

/-- Line 254 of app.py (catch-all only): `(payload.get("thread_id") or
payload.get("reddit_id") or str(uuid.uuid4())).strip()`. -/
def catchAllRid (p : Payload) (w : World) : String :=
  strip ((pyOrS (pyOrS p.thread_id p.reddit_id) (some w.uuid)).getD "")

/-- Truthiness of `info["duration"]`: present and nonzero. -/
def infoDurationTruthy (i : Info) : Option Rat :=
  match i.duration with
  | some d => if d = 0 then none else some d
  | none => none

/-- Line 107 of app.py: `bool(info.get("duration") or info.get("formats") or
info.get("url"))`. -/
def preflightHasMedia (info : Option Info) : Bool :=
  match info with
  | none => false
  | some i => (infoDurationTruthy i).isSome || i.hasFormats || i.hasUrl

/-- Lines 118-124 of app.py: the pre-download trim hint computed from the probe
metadata. -/
def needTrimFromInfo (cfg : Config) (info : Option Info) : Bool :=
  match info with
  | none => false
  | some i =>
    match infoDurationTruthy i with
    | some d => decide (cfg.max_duration_s > 0) && decide (d > (cfg.max_duration_s : Rat))
    | none => false

/-- Embeds `_ffprobe_duration` (app.py lines 71-82): the parsed duration is
returned only when it is positive; every failure collapses to `None`. -/
def ffprobe_duration (raw : Option Rat) : Option Rat :=
  match raw with
  | none => none
  | some d => if d > 0 then some d else none

/-- Lines 151-153 of app.py: the post-download trim condition read off ffprobe. -/
def needTrimFromProbe (cfg : Config) (post_dur : Option Rat) : Bool :=
  match post_dur with
  | some d => decide (cfg.max_duration_s > 0) && decide (d > (cfg.max_duration_s : Rat))
  | none => false

/-- The final value of the `need_trim` flag at app.py line 156. -/
def need_trim_final (cfg : Config) (w : World) : Bool :=
  needTrimFromInfo cfg w.preflight || needTrimFromProbe cfg (ffprobe_duration w.ffprobeRaw)

/-- The file whose size is checked and which is uploaded (`out_for_upload` at
app.py line 178/194): the trimmed copy when the trim branch ran, else the raw
fetch. -/
def upload_candidate (cfg : Config) (p : Payload) (w : World) : String :=
  if need_trim_final cfg w && decide (cfg.max_duration_s > 0) then trimmedPath p
  else outPath p

/-- The alphabet of `_short_id` (app.py line 85): ascii lowercase plus
digits. -/
def id_alphabet : List Char :=
  "abcdefghijklmnopqrstuvwxyz0123456789".toList

/-- Embeds `_short_id` (app.py lines 84-86): `n` draws of `random.choice`
over `id_alphabet`, with the random stream supplied by the world. -/
def short_id (rand : Nat → Nat) (n : Nat) : String :=
  String.mk ((List.range n).map (fun i => id_alphabet.getD (rand i % id_alphabet.length) 'a'))

/-- Line 190 of app.py: the Cloudinary unsigned-upload endpoint URL. -/
def up_url (cfg : Config) : String :=
  "https://api.cloudinary.com/v1_1/" ++ cfg.cld_name ++ "/video/upload"

/-- Line 227 of app.py: the thumbnail URL template over the remote identifier. -/
def thumbUrl (cfg : Config) (pid : String) : String :=
  "https://res.cloudinary.com/" ++ cfg.cld_name ++
    "/video/upload/so_2,w_640,h_360,c_fill,q_auto,f_auto/" ++ pid ++ ".jpg"

/-- Lines 226-229 of app.py: `thumb_url` is the template if `public_id` is
truthy, else `None`. -/
def thumbOf (cfg : Config) (pid : Option String) : Option String :=
  match pid with
  | some s => if s = "" then none else some (thumbUrl cfg s)
  | none => none

/-- The error body shape used by every error return of the handler:
`{thread_id: rid, source_url: vredd, error: {message: msg},
video_url_clean: vredd}`. -/
def errBody (rid : Option String) (vredd msg : String) : Resp :=
  Resp.err rid vredd msg vredd

/-- Lines 189-238 of app.py: the Cloudinary upload and the success/error returns
attached to it.  The `open(out_for_upload, "rb")` of line 194 precedes the
POST; when it raises (e.g. `FileNotFoundError`), the exception is not a
`RequestException`, so it escapes to the catch-all and no upload request is
made.  The `except` branches return error bodies; a failing `res.json()`
likewise raises an unanticipated exception that escapes to the catch-all.
All of these exits pass through the `finally` of line 240, so no temp file
survives them. -/
def do_upload (cfg : Config) (w : World) (rid : Option String) (vredd out_for_upload : String)
    (calls : List ExtCall) : InnerOut :=
  let public_id := short_id w.rand 12
  if !w.openOk then
    { res := Except.error (PyExn.exn w.openErrName w.openErrText), calls := calls, files := [] }
  else
  let calls' := calls ++ [ExtCall.uploadCall (up_url cfg) cfg.cld_preset public_id out_for_upload]
  match w.upload with
  | UploadOutcome.transportErr en et =>
    { res := Except.ok (errBody rid vredd ("cloudinary_exception: " ++ en ++ ": " ++ et)),
      calls := calls', files := [] }
  | UploadOutcome.resp r =>
    if r.status ≥ 300 then
      { res := Except.ok (errBody rid vredd
          ("cloudinary_error: " ++ toString r.status ++ " " ++ takeChars 200 r.text)),
        calls := calls', files := [] }
    else if !r.jsonOk then
      { res := Except.error (PyExn.exn w.jsonErrName w.jsonErrText),
        calls := calls', files := [] }
    else
      { res := Except.ok (Resp.ok rid vredd r.public_id r.secure_url (thumbOf cfg r.public_id)),
        calls := calls', files := [] }

/-- Lines 176-187 then 189-238 of app.py: the size guard (only when
`MAX_BYTES > 0`, with its `except Exception: pass`) followed by the upload. -/
def size_and_upload (cfg : Config) (w : World) (rid : Option String)
    (vredd out_for_upload : String) (calls : List ExtCall) : InnerOut :=
  if cfg.max_bytes > 0 then
    let calls' := calls ++ [ExtCall.getsizeCall out_for_upload]
    match w.getsize with
    | some n =>
      if (n : Int) > cfg.max_bytes then
        { res := Except.ok (errBody rid vredd
            ("skipped_large_file: " ++ toString n ++ "B > " ++ toString cfg.max_bytes ++ "B")),
          calls := calls', files := [] }
      else do_upload cfg w rid vredd out_for_upload calls'
    | none => do_upload cfg w rid vredd out_for_upload calls'
  else do_upload cfg w rid vredd out_for_upload calls

/-- The body of the outer `try` of `mux_upload` (app.py lines 96-247):
validation, preflight, download (whose error return predates the
`try/finally` and therefore skips cleanup), the trim branch, and the
size-check/upload region wrapped by the cleanup `finally`. -/
def innerRun (cfg : Config) (p : Payload) (w : World) : InnerOut :=
  let rid := p.thread_id
  let vredd := resolveVredd p
  if !(startsWithPy vredd "https://v.redd.it/") then
    { res := Except.error (PyExn.httpExc 400 "vredd_url inválida"), calls := [], files := [] }
  else
    let info := w.preflight
    if info.isNone || !(preflightHasMedia info) then
      { res := Except.ok (errBody rid vredd "unavailable_or_removed_preflight"),
        calls := [ExtCall.preflightCall vredd], files := [] }
    else
      let out_path := outPath p
      let trimmed_path := trimmedPath p
      let calls0 := [ExtCall.preflightCall vredd, ExtCall.fetchCall vredd out_path]
      match w.fetch with
      | FetchOutcome.err created msg =>
        { res := Except.ok (errBody rid vredd ("yt-dlp_error: " ++ msg)),
          calls := calls0, files := if created then [out_path] else [] }
      | FetchOutcome.ok =>
        let calls1 := calls0 ++ [ExtCall.ffprobeCall out_path]
        if need_trim_final cfg w && decide (cfg.max_duration_s > 0) then
          let calls2 := calls1 ++ [ExtCall.trimCall out_path trimmed_path cfg.max_duration_s]
          if w.trimOk then
            size_and_upload cfg w rid vredd trimmed_path calls2
          else
            { res := Except.ok (errBody rid vredd ("ffmpeg_trim_error: " ++ w.trimErrMsg)),
              calls := calls2, files := [] }
        else
          size_and_upload cfg w rid vredd out_path calls1

/-- The auth rejection condition of app.py line 92:
`WORKER_TOKEN and x_token != WORKER_TOKEN`. -/
def authFails (cfg : Config) (x_token : String) : Prop :=
  cfg.worker_token ≠ "" ∧ x_token ≠ cfg.worker_token

instance (cfg : Config) (x_token : String) : Decidable (authFails cfg x_token) := by
  unfold authFails; infer_instance

/-- Embeds the `mux_upload` endpoint (app.py lines 89-261): the auth check,
the inner flow, re-raising of `HTTPException`, and the catch-all that turns
any other exception into a 200 error body with a recomputed `thread_id` and
`source_url`. -/
def mux_upload (cfg : Config) (p : Payload) (w : World) (x_token : String) : Run :=
  if authFails cfg x_token then
    { result := HResult.httpErr 401 "invalid token", calls := [], files := [] }
  else
    let io := innerRun cfg p w
    match io.res with
    | Except.ok b => { result := HResult.body b, calls := io.calls, files := io.files }
    | Except.error (PyExn.httpExc s d) =>
      { result := HResult.httpErr s d, calls := io.calls, files := io.files }
    | Except.error (PyExn.exn en et) =>
      { result := HResult.body (Resp.err (some (catchAllRid p w)) (resolveVredd p)
          ("unexpected_exception: " ++ en ++ ": " ++ et) (resolveVredd p)),
        calls := io.calls, files := io.files }



/-- Recognizer for the Publisher invocation in a call trace. -/
def isUploadCall : ExtCall → Bool
  | ExtCall.uploadCall _ _ _ _ => true
  | _ => false

/-- The calls performed before the size-check/upload region on a run that
reaches it: probe, download, local duration read, and the trim when taken. -/
def preCalls (cfg : Config) (p : Payload) (w : World) : List ExtCall :=
  if need_trim_final cfg w && decide (cfg.max_duration_s > 0) then
    [ExtCall.preflightCall (resolveVredd p), ExtCall.fetchCall (resolveVredd p) (outPath p),
     ExtCall.ffprobeCall (outPath p),
     ExtCall.trimCall (outPath p) (trimmedPath p) cfg.max_duration_s]
  else
    [ExtCall.preflightCall (resolveVredd p), ExtCall.fetchCall (resolveVredd p) (outPath p),
     ExtCall.ffprobeCall (outPath p)]

/-- Default configuration fixture: no token, 300 s cap, no byte cap. -/
def cfgD : Config := {}

/-- Configuration fixture with a 240 s duration cap and a 5-byte cap. -/
def cfgSize : Config := { max_duration_s := 240, max_bytes := 5 }

/-- Probe metadata fixture: 30 s of media. -/
def infoShort : Info := { duration := some 30 }

/-- Probe metadata fixture: 400 s of media. -/
def infoLong : Info := { duration := some 400 }

/-- Cloudinary 200 response fixture with well-formed JSON. -/
def httpOkJson : UploadHttp :=
  { public_id := some "pid123", secure_url := some "https://sec.example/v" }

/-- Cloudinary 200 response fixture whose body fails to parse as JSON. -/
def httpBadJson : UploadHttp := { jsonOk := false }

/-- Request fixture: thread id and a valid source URL. -/
def pMain : Payload := { thread_id := some "t1", vredd_url := some "https://v.redd.it/abc" }

/-- Request fixture differing from `pMain` in both id and source URL. -/
def pAlt : Payload :=
  { thread_id := some "zz9", video_url_clean := some "https://v.redd.it/other" }

/-- Request fixture with no correlation identifier under any alias. -/
def pNoId : Payload := { vredd_url := some "https://v.redd.it/noid" }

/-- Request fixture with a whitespace-padded thread id. -/
def pPadId : Payload :=
  { thread_id := some " t42 ", vredd_url := some "https://v.redd.it/abc" }

/-- Second whitespace-padded request fixture. -/
def pPadId2 : Payload :=
  { thread_id := some " abc ", vredd_url := some "https://v.redd.it/abc" }

/-- Two distinct request fixtures sharing the thread id `dup`. -/
def pDupA : Payload := { thread_id := some "dup", vredd_url := some "https://v.redd.it/aaa" }

/-- Second request fixture with thread id `dup` but another source field. -/
def pDupB : Payload := { thread_id := some "dup", video_url := some "https://v.redd.it/bbb" }

/-- Request fixture whose resolved URL is outside the trusted host. -/
def pBadUrl : Payload := { thread_id := some "x", video_url := some "https://example.com/a" }

/-- World fixture for a fully successful run. -/
def wSuccess : World := { preflight := some infoShort, upload := UploadOutcome.resp httpOkJson }

/-- World fixture whose probe returns the empty dict. -/
def wEmpty : World := {}

/-- World fixture where the download fails after creating its output file. -/
def wFetchFail : World :=
  { preflight := some infoShort, fetch := FetchOutcome.err true "exit 1" }

/-- World-fixture family where `res.json()` raises a `KeyError` with the given
text. -/
def wJsonFailT (t : String) : World :=
  { preflight := some infoShort, upload := UploadOutcome.resp httpBadJson,
    jsonErrName := "KeyError", jsonErrText := t }

/-- World fixture where `res.json()` raises `KeyError: boom`. -/
def wJsonFail : World := wJsonFailT "boom"

/-- World fixture: over-long media that trims fine but stays too big. -/
def wTrimSkip : World :=
  { preflight := some infoLong, ffprobeRaw := some 400, getsize := some 10 }

/-- World fixture where `os.path.getsize` raises. -/
def wSizeFail : World :=
  { preflight := some infoShort, getsize := none, upload := UploadOutcome.resp httpOkJson }

/-- World fixture where the candidate file is missing: both the size read and
the subsequent `open` raise. -/
def wOpenFail : World :=
  { preflight := some infoShort, getsize := none, openOk := false,
    openErrName := "FileNotFoundError", openErrText := "No such file or directory" }



/-- A media-positive probe result is in particular a non-empty dict. -/
theorem preflightHasMedia_isSome {info : Option Info} (h : preflightHasMedia info = true) :
    info.isNone = false := by
  cases info <;> simp [preflightHasMedia] at h ⊢

/-- Shape of the upload region's result: an error body or a success body
carrying the given `rid`/`vredd`, or the `res.json()` exception. -/
theorem do_upload_res (cfg : Config) (w : World) (rid : Option String)
    (vredd path : String) (calls : List ExtCall) :
    (∃ b, (do_upload cfg w rid vredd path calls).res = Except.ok b
        ∧ respThreadId b = rid ∧ respSourceUrl b = vredd)
    ∨ ∃ en et, (do_upload cfg w rid vredd path calls).res
        = Except.error (PyExn.exn en et) := by
  unfold do_upload
  by_cases ho : w.openOk
  · simp only [ho, Bool.not_true, Bool.false_eq_true, if_false]
    cases hu : w.upload with
    | transportErr en et =>
      simp only [hu]
      left; exact ⟨_, rfl, rfl, rfl⟩
    | resp r =>
      simp only [hu]
      by_cases h3 : r.status ≥ 300
      · simp only [if_pos h3]; left; exact ⟨_, rfl, rfl, rfl⟩
      · by_cases hj : r.jsonOk
        · simp only [if_neg h3, hj, Bool.not_true, Bool.false_eq_true, if_false]
          left; exact ⟨_, rfl, rfl, rfl⟩
        · have hj2 : r.jsonOk = false := by simpa using hj
          simp only [if_neg h3, hj2, Bool.not_false, if_true]
          right; exact ⟨_, _, rfl⟩
  · have ho2 : w.openOk = false := by simpa using ho
    simp only [ho2, Bool.not_false, if_true]
    right; exact ⟨_, _, rfl⟩

theorem size_and_upload_res (cfg : Config) (w : World) (rid : Option String)
    (vredd path : String) (calls : List ExtCall) :
    (∃ b, (size_and_upload cfg w rid vredd path calls).res = Except.ok b
        ∧ respThreadId b = rid ∧ respSourceUrl b = vredd)
    ∨ ∃ en et, (size_and_upload cfg w rid vredd path calls).res
        = Except.error (PyExn.exn en et) := by
  unfold size_and_upload
  by_cases hb : cfg.max_bytes > 0
  · simp only [if_pos hb]
    cases hg : w.getsize with
    | some n =>
      by_cases hn : (n : Int) > cfg.max_bytes
      · simp only [if_pos hn]; left; exact ⟨_, rfl, rfl, rfl⟩
      · simp only [if_neg hn]; exact do_upload_res ..
    | none => exact do_upload_res ..
  · simp only [if_neg hb]; exact do_upload_res ..

/-- Shape of the inner flow's result: the 400 validation exception (only when
the URL fails the check), a body carrying the normalization-time
`thread_id`/`source_url`, or the unanticipated exception. -/
theorem inner_shape (cfg : Config) (p : Payload) (w : World) :
    ((innerRun cfg p w).res = Except.error (PyExn.httpExc 400 "vredd_url inválida")
        ∧ startsWithPy (resolveVredd p) "https://v.redd.it/" = false)
    ∨ (∃ b, (innerRun cfg p w).res = Except.ok b
        ∧ respThreadId b = p.thread_id ∧ respSourceUrl b = resolveVredd p)
    ∨ ∃ en et, (innerRun cfg p w).res = Except.error (PyExn.exn en et) := by
  unfold innerRun
  by_cases hv : startsWithPy (resolveVredd p) "https://v.redd.it/"
  · simp only [hv, Bool.not_true, Bool.false_eq_true, if_false]
    by_cases hm : w.preflight.isNone || !(preflightHasMedia w.preflight)
    · simp only [hm, if_true]
      right; left; exact ⟨_, rfl, rfl, rfl⟩
    · simp only [hm, Bool.false_eq_true, if_false]
      cases hf : w.fetch with
      | err created msg =>
        simp only [hf]
        right; left; exact ⟨_, rfl, rfl, rfl⟩
      | ok =>
        simp only [hf]
        by_cases ht : need_trim_final cfg w && decide (cfg.max_duration_s > 0)
        · simp only [ht, if_true]
          by_cases htr : w.trimOk
          · simp only [htr, if_true]
            rcases size_and_upload_res cfg w p.thread_id (resolveVredd p) (trimmedPath p) _ with h | h
            · right; left; exact h
            · right; right; exact h
          · simp only [htr, Bool.false_eq_true, if_false]
            right; left; exact ⟨_, rfl, rfl, rfl⟩
        · simp only [ht, Bool.false_eq_true, if_false]
          rcases size_and_upload_res cfg w p.thread_id (resolveVredd p) (outPath p) _ with h | h
          · right; left; exact h
          · right; right; exact h
  · have hv2 : startsWithPy (resolveVredd p) "https://v.redd.it/" = false := by
      simpa using hv
    left
    refine ⟨?_, hv2⟩
    simp only [hv2, Bool.not_false, if_true]



/-- Temp files never survive the upload region (its exits all pass through the
cleanup `finally`). -/
theorem do_upload_files (cfg : Config) (w : World) (rid : Option String)
    (vredd path : String) (calls : List ExtCall) :
    (do_upload cfg w rid vredd path calls).files = [] := by
  unfold do_upload
  by_cases ho : w.openOk
  · simp only [ho, Bool.not_true, Bool.false_eq_true, if_false]
    cases w.upload with
    | transportErr en et => rfl
    | resp r => by_cases h3 : r.status ≥ 300 <;> by_cases hj : r.jsonOk <;> simp [h3, hj]
  · have ho2 : w.openOk = false := by simpa using ho
    simp [ho2]

theorem size_and_upload_files (cfg : Config) (w : World) (rid : Option String)
    (vredd path : String) (calls : List ExtCall) :
    (size_and_upload cfg w rid vredd path calls).files = [] := by
  unfold size_and_upload
  by_cases hb : cfg.max_bytes > 0
  · simp only [if_pos hb]
    cases hg : w.getsize with
    | some n =>
      by_cases hn : (n : Int) > cfg.max_bytes
      · simp only [if_pos hn]
      · simp only [if_neg hn]; exact do_upload_files ..
    | none => exact do_upload_files ..
  · simp only [if_neg hb]; exact do_upload_files ..

/-- Temp files survive the handler only on the download-failure return (which
predates the cleanup `try/finally`), and then only when the failed download
left its output file behind. -/
theorem inner_files (cfg : Config) (p : Payload) (w : World) :
    (innerRun cfg p w).files = []
    ∨ ∃ m, w.fetch = FetchOutcome.err true m ∧ (innerRun cfg p w).files = [outPath p] := by
  unfold innerRun
  by_cases hv : startsWithPy (resolveVredd p) "https://v.redd.it/"
  · simp only [hv, Bool.not_true, Bool.false_eq_true, if_false]
    by_cases hm : w.preflight.isNone || !(preflightHasMedia w.preflight)
    · simp only [hm, if_true]; left; trivial
    · simp only [hm, Bool.false_eq_true, if_false]
      cases hf : w.fetch with
      | err created msg =>
        simp only [hf]
        cases created
        · left; rfl
        · right; exact ⟨msg, rfl, rfl⟩
      | ok =>
        simp only [hf]
        by_cases ht : need_trim_final cfg w && decide (cfg.max_duration_s > 0)
        · simp only [ht, if_true]
          by_cases htr : w.trimOk
          · simp only [htr, if_true]; left; exact size_and_upload_files ..
          · simp only [htr, Bool.false_eq_true, if_false]; left; trivial
        · simp only [ht, Bool.false_eq_true, if_false]; left; exact size_and_upload_files ..
  · have hv2 : startsWithPy (resolveVredd p) "https://v.redd.it/" = false := by simpa using hv
    simp only [hv2, Bool.not_false, if_true]; left; trivial

/-- The calls recorded by the upload region when the candidate file can be
opened: the POSTed upload is appended. -/
theorem do_upload_calls (cfg : Config) (w : World) (rid : Option String)
    (vredd path : String) (calls : List ExtCall) (hopen : w.openOk = true) :
    (do_upload cfg w rid vredd path calls).calls
      = calls ++ [ExtCall.uploadCall (up_url cfg) cfg.cld_preset (short_id w.rand 12) path] := by
  unfold do_upload
  simp only [hopen, Bool.not_true, Bool.false_eq_true, if_false]
  cases w.upload with
  | transportErr en et => rfl
  | resp r => by_cases h3 : r.status ≥ 300 <;> by_cases hj : r.jsonOk <;> simp [h3, hj]

/-- A failing `open` escapes before the POST: the open-failure exception is
raised, no upload call is recorded, and the cleanup `finally` still runs. -/
theorem do_upload_openfail (cfg : Config) (w : World) (rid : Option String)
    (vredd path : String) (calls : List ExtCall) (hopen : w.openOk = false) :
    do_upload cfg w rid vredd path calls
      = { res := Except.error (PyExn.exn w.openErrName w.openErrText),
          calls := calls, files := [] } := by
  unfold do_upload
  simp [hopen]

/-- Every call recorded by the upload region is inherited or is the upload of
the given candidate under the fresh `_short_id`. -/
theorem do_upload_calls_sub (cfg : Config) (w : World) (rid : Option String)
    (vredd path : String) (calls : List ExtCall) (c : ExtCall)
    (hc : c ∈ (do_upload cfg w rid vredd path calls).calls) :
    c ∈ calls
    ∨ c = ExtCall.uploadCall (up_url cfg) cfg.cld_preset (short_id w.rand 12) path := by
  by_cases ho : w.openOk
  · rw [do_upload_calls cfg w rid vredd path calls ho] at hc
    rw [List.mem_append, List.mem_singleton] at hc
    exact hc
  · have ho2 : w.openOk = false := by simpa using ho
    rw [do_upload_openfail cfg w rid vredd path calls ho2] at hc
    exact Or.inl hc

/-- Every call recorded by the size-check/upload region is an inherited call,
the size probe on the given candidate, or the upload of the given candidate
under the freshly drawn `_short_id`. -/
theorem size_and_upload_calls_sub (cfg : Config) (w : World) (rid : Option String)
    (vredd path : String) (calls : List ExtCall) (c : ExtCall)
    (hc : c ∈ (size_and_upload cfg w rid vredd path calls).calls) :
    c ∈ calls ∨ c = ExtCall.getsizeCall path
    ∨ c = ExtCall.uploadCall (up_url cfg) cfg.cld_preset (short_id w.rand 12) path := by
  unfold size_and_upload at hc
  by_cases hb : cfg.max_bytes > 0
  · simp only [if_pos hb] at hc
    cases hg : w.getsize with
    | some n =>
      simp only [hg] at hc
      by_cases hn : (n : Int) > cfg.max_bytes
      · simp only [if_pos hn] at hc
        simp only [List.mem_append, List.mem_singleton] at hc
        rcases hc with hc | hc
        · exact Or.inl hc
        · exact Or.inr (Or.inl hc)
      · simp only [if_neg hn] at hc
        rcases do_upload_calls_sub cfg w rid vredd path _ c hc with h | h
        · rw [List.mem_append, List.mem_singleton] at h
          rcases h with h | h
          · exact Or.inl h
          · exact Or.inr (Or.inl h)
        · exact Or.inr (Or.inr h)
    | none =>
      simp only [hg] at hc
      rcases do_upload_calls_sub cfg w rid vredd path _ c hc with h | h
      · rw [List.mem_append, List.mem_singleton] at h
        rcases h with h | h
        · exact Or.inl h
        · exact Or.inr (Or.inl h)
      · exact Or.inr (Or.inr h)
  · simp only [if_neg hb] at hc
    rcases do_upload_calls_sub cfg w rid vredd path _ c hc with h | h
    · exact Or.inl h
    · exact Or.inr (Or.inr h)

/-- Every external call the inner flow performs is one of the six tool
invocations of app.py, and the paths handed to the tools are fixed by the
payload and the world: yt-dlp writes `outPath`, and both the size probe and
the upload operate on `upload_candidate`. -/
theorem inner_calls_shape (cfg : Config) (p : Payload) (w : World) (c : ExtCall)
    (hc : c ∈ (innerRun cfg p w).calls) :
    c = ExtCall.preflightCall (resolveVredd p)
    ∨ c = ExtCall.fetchCall (resolveVredd p) (outPath p)
    ∨ c = ExtCall.ffprobeCall (outPath p)
    ∨ c = ExtCall.trimCall (outPath p) (trimmedPath p) cfg.max_duration_s
    ∨ c = ExtCall.getsizeCall (upload_candidate cfg p w)
    ∨ c = ExtCall.uploadCall (up_url cfg) cfg.cld_preset (short_id w.rand 12)
        (upload_candidate cfg p w) := by
  unfold innerRun at hc
  by_cases hv : startsWithPy (resolveVredd p) "https://v.redd.it/"
  · simp only [hv, Bool.not_true, Bool.false_eq_true, if_false] at hc
    by_cases hm : w.preflight.isNone || !(preflightHasMedia w.preflight)
    · simp only [hm, if_true, List.mem_singleton] at hc
      exact Or.inl hc
    · simp only [hm, Bool.false_eq_true, if_false] at hc
      cases hf : w.fetch with
      | err created msg =>
        simp only [hf, List.mem_cons, List.not_mem_nil, or_false] at hc
        rcases hc with hc | hc
        · exact Or.inl hc
        · exact Or.inr (Or.inl hc)
      | ok =>
        simp only [hf] at hc
        by_cases ht : need_trim_final cfg w && decide (cfg.max_duration_s > 0)
        · have hcand : upload_candidate cfg p w = trimmedPath p := by
            unfold upload_candidate; simp [ht]
          simp only [ht, if_true] at hc
          by_cases htr : w.trimOk
          · simp only [htr, if_true] at hc
            rcases size_and_upload_calls_sub cfg w p.thread_id (resolveVredd p)
                (trimmedPath p) _ c hc with h | h | h
            · simp only [List.cons_append, List.nil_append, List.mem_cons,
                List.not_mem_nil, or_false] at h
              rcases h with h | h | h | h
              · exact Or.inl h
              · exact Or.inr (Or.inl h)
              · exact Or.inr (Or.inr (Or.inl h))
              · exact Or.inr (Or.inr (Or.inr (Or.inl h)))
            · exact Or.inr (Or.inr (Or.inr (Or.inr (Or.inl (hcand ▸ h)))))
            · exact Or.inr (Or.inr (Or.inr (Or.inr (Or.inr (hcand ▸ h)))))
          · simp only [htr, Bool.false_eq_true, if_false] at hc
            simp only [List.cons_append, List.nil_append, List.mem_cons,
              List.not_mem_nil, or_false] at hc
            rcases hc with h | h | h | h
            · exact Or.inl h
            · exact Or.inr (Or.inl h)
            · exact Or.inr (Or.inr (Or.inl h))
            · exact Or.inr (Or.inr (Or.inr (Or.inl h)))
        · have hcand : upload_candidate cfg p w = outPath p := by
            unfold upload_candidate
            simp only [Bool.not_eq_true] at ht
            simp [ht]
          simp only [ht, Bool.false_eq_true, if_false] at hc
          rcases size_and_upload_calls_sub cfg w p.thread_id (resolveVredd p)
              (outPath p) _ c hc with h | h | h
          · simp only [List.cons_append, List.nil_append, List.mem_cons,
              List.not_mem_nil, or_false] at h
            rcases h with h | h | h
            · exact Or.inl h
            · exact Or.inr (Or.inl h)
            · exact Or.inr (Or.inr (Or.inl h))
          · exact Or.inr (Or.inr (Or.inr (Or.inr (Or.inl (hcand ▸ h)))))
          · exact Or.inr (Or.inr (Or.inr (Or.inr (Or.inr (hcand ▸ h)))))
  · have hv2 : startsWithPy (resolveVredd p) "https://v.redd.it/" = false := by simpa using hv
    simp only [hv2, Bool.not_false, if_true, List.not_mem_nil] at hc



/-- When auth passes, the handler's recorded calls are those of the inner
flow. -/
theorem mux_calls (cfg : Config) (p : Payload) (w : World) (xt : String)
    (h : ¬ authFails cfg xt) :
    (mux_upload cfg p w xt).calls = (innerRun cfg p w).calls := by
  unfold mux_upload
  simp only [if_neg h]
  cases hres : (innerRun cfg p w).res with
  | ok b => simp [hres]
  | error e => cases e <;> simp [hres]

/-- When auth passes, the handler's surviving files are those of the inner
flow. -/
theorem mux_files (cfg : Config) (p : Payload) (w : World) (xt : String)
    (h : ¬ authFails cfg xt) :
    (mux_upload cfg p w xt).files = (innerRun cfg p w).files := by
  unfold mux_upload
  simp only [if_neg h]
  cases hres : (innerRun cfg p w).res with
  | ok b => simp [hres]
  | error e => cases e <;> simp [hres]

/-- A returned body passes through the outer handler unchanged. -/
theorem mux_res_ok (cfg : Config) (p : Payload) (w : World) (xt : String) (b : Resp)
    (h : ¬ authFails cfg xt) (hres : (innerRun cfg p w).res = Except.ok b) :
    (mux_upload cfg p w xt).result = HResult.body b := by
  unfold mux_upload
  simp [h, hres]

/-- An unanticipated exception is converted by the catch-all (app.py lines
252-261) into a 200 body with the recomputed `thread_id` and the re-resolved
source URL. -/
theorem mux_res_exn (cfg : Config) (p : Payload) (w : World) (xt : String) (en et : String)
    (h : ¬ authFails cfg xt) (hres : (innerRun cfg p w).res = Except.error (PyExn.exn en et)) :
    (mux_upload cfg p w xt).result
      = HResult.body (Resp.err (some (catchAllRid p w)) (resolveVredd p)
          ("unexpected_exception: " ++ en ++ ": " ++ et) (resolveVredd p)) := by
  unfold mux_upload
  simp [h, hres]

/-- A run with a valid URL, a media-positive probe, a successful download and
a successful trim (when one is needed) reaches the size-check/upload region
on the upload candidate. -/
theorem inner_reaches_size (cfg : Config) (p : Payload) (w : World)
    (hurl : startsWithPy (resolveVredd p) "https://v.redd.it/" = true)
    (hmedia : preflightHasMedia w.preflight = true)
    (hfetch : w.fetch = FetchOutcome.ok)
    (htrim : (need_trim_final cfg w && decide (cfg.max_duration_s > 0)) = true → w.trimOk = true) :
    innerRun cfg p w
      = size_and_upload cfg w p.thread_id (resolveVredd p) (upload_candidate cfg p w)
          (preCalls cfg p w) := by
  have hne : w.preflight.isNone = false := preflightHasMedia_isSome hmedia
  unfold innerRun
  simp only [hurl, Bool.not_true, Bool.false_eq_true, if_false, hne, hmedia,
    Bool.not_true, Bool.or_self, Bool.false_eq_true, if_false, hfetch]
  by_cases ht : need_trim_final cfg w && decide (cfg.max_duration_s > 0)
  · have htr : w.trimOk = true := htrim ht
    simp only [ht, if_true, htr]
    unfold upload_candidate preCalls
    simp [ht]
  · simp only [ht, Bool.false_eq_true, if_false]
    unfold upload_candidate preCalls
    simp only [Bool.not_eq_true] at ht
    simp [ht]

/-- The size guard returns the skipped body and stops when the measured size
exceeds the configured maximum. -/
theorem size_and_upload_skip (cfg : Config) (w : World) (rid : Option String)
    (vredd path : String) (calls : List ExtCall) (n : Nat)
    (hmb : cfg.max_bytes > 0) (hg : w.getsize = some n) (hn : (n : Int) > cfg.max_bytes) :
    size_and_upload cfg w rid vredd path calls =
      { res := Except.ok (errBody rid vredd
          ("skipped_large_file: " ++ toString n ++ "B > " ++ toString cfg.max_bytes ++ "B")),
        calls := calls ++ [ExtCall.getsizeCall path], files := [] } := by
  unfold size_and_upload
  simp [hmb, hg, hn]

/-- A failing `os.path.getsize` silently falls through to the upload (the
`except Exception: pass` of app.py lines 186-187). -/
theorem size_and_upload_sizefail (cfg : Config) (w : World) (rid : Option String)
    (vredd path : String) (calls : List ExtCall)
    (hmb : cfg.max_bytes > 0) (hg : w.getsize = none) :
    size_and_upload cfg w rid vredd path calls
      = do_upload cfg w rid vredd path (calls ++ [ExtCall.getsizeCall path]) := by
  unfold size_and_upload
  simp [hmb, hg]



/-- None of the calls up to and including the size probe is a Publisher
invocation. -/
theorem preCalls_no_upload (cfg : Config) (p : Payload) (w : World) (x : String) :
    ∀ c ∈ preCalls cfg p w ++ [ExtCall.getsizeCall x], isUploadCall c = false := by
  intro c hc
  rw [List.mem_append] at hc
  rcases hc with hc | hc
  · unfold preCalls at hc
    by_cases ht : need_trim_final cfg w && decide (cfg.max_duration_s > 0)
    · rw [if_pos ht] at hc
      simp only [List.mem_cons, List.not_mem_nil, or_false] at hc
      rcases hc with rfl | rfl | rfl | rfl <;> rfl
    · rw [if_neg ht] at hc
      simp only [List.mem_cons, List.not_mem_nil, or_false] at hc
      rcases hc with rfl | rfl | rfl <;> rfl
  · rw [List.mem_singleton] at hc
    subst hc; rfl

/-- Every upload-call recorded by the handler carries the freshly drawn
`_short_id` of the current world, whatever the payload was. -/
theorem upload_pid_fixed (cfg : Config) (p : Payload) (w : World) (xt u pr pid f : String)
    (hc : ExtCall.uploadCall u pr pid f ∈ (mux_upload cfg p w xt).calls) :
    pid = short_id w.rand 12 := by
  by_cases hauth : authFails cfg xt
  · unfold mux_upload at hc; rw [if_pos hauth] at hc; simp at hc
  · rw [mux_calls cfg p w xt hauth] at hc
    rcases inner_calls_shape cfg p w _ hc with h | h | h | h | h | h
    · exact ExtCall.noConfusion h
    · exact ExtCall.noConfusion h
    · exact ExtCall.noConfusion h
    · exact ExtCall.noConfusion h
    · exact ExtCall.noConfusion h
    · simp only [ExtCall.uploadCall.injEq] at h
      exact h.2.2.1

/-- The catch-all run of the `wJsonFailT` family: the response embeds the
exception text in full. -/
theorem wJsonFailT_run (t : String) :
    (mux_upload cfgD pMain (wJsonFailT t) "").result
      = HResult.body (Resp.err (some "t1") "https://v.redd.it/abc"
          ("unexpected_exception: KeyError: " ++ t) "https://v.redd.it/abc") := rfl

/-- C1 (amended): once auth passes and the source URL validates, every
outcome of every later stage - probe failure, fetch failure, trim failure,
size skip, upload failure, and the unanticipated-exception catch-all - is
returned as a 200 structured body that echoes the normalization-time source
URL, carries the captured `thread_id` (or, on the catch-all path only, its
stripped/fallback variant), and holds either an `error.message` or the
publish fields; non-200 statuses arise solely from bad auth (401) or a bad
source URL (400). -/
theorem C1_response_contract (cfg : Config) (p : Payload) (w : World) (xt : String) :
    (¬ authFails cfg xt → startsWithPy (resolveVredd p) "https://v.redd.it/" = true →
      ∃ b, (mux_upload cfg p w xt).result = HResult.body b
        ∧ respSourceUrl b = resolveVredd p
        ∧ (respThreadId b = p.thread_id ∨ respThreadId b = some (catchAllRid p w))
        ∧ ((∃ m, respErrMsg b = some m)
            ∨ ∃ pid su th, b = Resp.ok (respThreadId b) (respSourceUrl b) pid su th))
    ∧ (∀ s d, (mux_upload cfg p w xt).result = HResult.httpErr s d →
        (s = 401 ∧ authFails cfg xt)
        ∨ (s = 400 ∧ startsWithPy (resolveVredd p) "https://v.redd.it/" = false)) := by
  constructor
  · intro hauth hurl
    rcases inner_shape cfg p w with ⟨_, hbad⟩ | ⟨b, hres, htid, hsrc⟩ | ⟨en, et, hres⟩
    · rw [hurl] at hbad; exact absurd hbad (by simp)
    · refine ⟨b, mux_res_ok cfg p w xt b hauth hres, hsrc, Or.inl htid, ?_⟩
      cases b with
      | err tid su m vc => exact Or.inl ⟨m, rfl⟩
      | ok tid su pid sec th => exact Or.inr ⟨pid, sec, th, rfl⟩
    · exact ⟨_, mux_res_exn cfg p w xt en et hauth hres, rfl, Or.inr rfl, Or.inl ⟨_, rfl⟩⟩
  · intro s d hr
    by_cases hauth : authFails cfg xt
    · left
      refine ⟨?_, hauth⟩
      unfold mux_upload at hr
      rw [if_pos hauth] at hr
      simp only [HResult.httpErr.injEq] at hr
      exact hr.1.symm
    · right
      rcases inner_shape cfg p w with ⟨hres, hbad⟩ | ⟨b, hres, _, _⟩ | ⟨en, et, hres⟩
      · refine ⟨?_, hbad⟩
        unfold mux_upload at hr
        rw [if_neg hauth] at hr
        simp only [hres, HResult.httpErr.injEq] at hr
        exact hr.1.symm
      · rw [mux_res_ok cfg p w xt b hauth hres] at hr
        exact absurd hr (by simp)
      · rw [mux_res_exn cfg p w xt en et hauth hres] at hr
        exact absurd hr (by simp)

/-- Witness for C1 at a concrete successful run. -/
theorem C1_response_contract_witness :
    (¬ authFails cfgD "")
    ∧ startsWithPy (resolveVredd pMain) "https://v.redd.it/" = true
    ∧ ∃ b, (mux_upload cfgD pMain wSuccess "").result = HResult.body b
        ∧ respSourceUrl b = resolveVredd pMain
        ∧ (respThreadId b = pMain.thread_id ∨ respThreadId b = some (catchAllRid pMain wSuccess))
        ∧ ((∃ m, respErrMsg b = some m)
            ∨ ∃ pid su th, b = Resp.ok (respThreadId b) (respSourceUrl b) pid su th) :=
  ⟨by decide, by decide,
    (C1_response_contract cfgD pMain wSuccess "").1 (by decide) (by decide)⟩

/-- Counterexample to C1 as stated: a catch-all run returns a 200 body whose
correlation identifier is not the echoed one (it is stripped). -/
theorem C1_counterexample :
    (mux_upload cfgD pPadId2 wJsonFail "").result
      = HResult.body (Resp.err (some "abc") "https://v.redd.it/abc"
          "unexpected_exception: KeyError: boom" "https://v.redd.it/abc")
    ∧ respThreadId (Resp.err (some "abc") "https://v.redd.it/abc"
          "unexpected_exception: KeyError: boom" "https://v.redd.it/abc")
        ≠ pPadId2.thread_id := by decide

/-- C2 (amended): temp files are deleted on every outcome except the
download-failure return, which skips the cleanup block; whenever the fetch
did not fail leaving its output file behind, no temp file survives. -/
theorem C2_cleanup_outside_fetch_failure (cfg : Config) (p : Payload) (w : World) (xt : String)
    (h : ∀ m, w.fetch ≠ FetchOutcome.err true m) :
    (mux_upload cfg p w xt).files = [] := by
  by_cases hauth : authFails cfg xt
  · unfold mux_upload; rw [if_pos hauth]
  · rw [mux_files cfg p w xt hauth]
    rcases inner_files cfg p w with hf | ⟨m, hm, _⟩
    · exact hf
    · exact absurd hm (h m)

/-- Witness for C2's amended cleanup theorem on a successful run. -/
theorem C2_cleanup_witness :
    (∀ m, wSuccess.fetch ≠ FetchOutcome.err true m)
    ∧ (mux_upload cfgD pMain wSuccess "").files = [] :=
  ⟨fun m hm => by simp [wSuccess] at hm,
   C2_cleanup_outside_fetch_failure cfgD pMain wSuccess ""
     (fun m hm => by simp [wSuccess] at hm)⟩

/-- Counterexample to C2 as stated: when the download fails after creating
its output file, the handler returns the fetch-failure body but the raw temp
file is still on disk. -/
theorem C2_counterexample :
    (mux_upload cfgD pMain wFetchFail "").result
      = HResult.body (errBody (some "t1") "https://v.redd.it/abc" "yt-dlp_error: exit 1")
    ∧ (mux_upload cfgD pMain wFetchFail "").files = ["/tmp/t1.mp4"] := by decide

/-- C3: the code, at the failing input, reports a different correlation
identifier on the catch-all path (`"t42"`) than the one the caller sent and
than the normal paths report (`" t42 "`), contradicting the echo invariant
and the comment of app.py line 97. -/
theorem C3_catchall_id_divergence :
    (mux_upload cfgD pPadId wJsonFail "").result
      = HResult.body (Resp.err (some "t42") "https://v.redd.it/abc"
          "unexpected_exception: KeyError: boom" "https://v.redd.it/abc")
    ∧ (mux_upload cfgD pPadId wEmpty "").result
      = HResult.body (errBody (some " t42 ") "https://v.redd.it/abc"
          "unavailable_or_removed_preflight")
    ∧ some "t42" ≠ pPadId.thread_id := by decide

/-- C4 (amended): the temp-file names are derived precisely from the
caller-supplied correlation identifier, so any two requests with the same
`thread_id` map to the same download path. -/
theorem C4_paths_from_thread_id (cfg : Config) (p : Payload) (w : World) (xt u d : String)
    (hc : ExtCall.fetchCall u d ∈ (mux_upload cfg p w xt).calls) :
    d = outPath p ∧ ∀ p2 : Payload, p2.thread_id = p.thread_id → d = outPath p2 := by
  by_cases hauth : authFails cfg xt
  · unfold mux_upload at hc; rw [if_pos hauth] at hc; simp at hc
  · rw [mux_calls cfg p w xt hauth] at hc
    rcases inner_calls_shape cfg p w _ hc with h | h | h | h | h | h
    · exact ExtCall.noConfusion h
    · simp only [ExtCall.fetchCall.injEq] at h
      refine ⟨h.2, fun p2 h2 => ?_⟩
      rw [h.2]
      unfold outPath
      rw [h2]
    · exact ExtCall.noConfusion h
    · exact ExtCall.noConfusion h
    · exact ExtCall.noConfusion h
    · exact ExtCall.noConfusion h

/-- Witness for C4's amended theorem at a concrete run. -/
theorem C4_paths_witness :
    (ExtCall.fetchCall "https://v.redd.it/abc" "/tmp/t1.mp4"
        ∈ (mux_upload cfgD pMain wSuccess "").calls)
    ∧ "/tmp/t1.mp4" = outPath pMain :=
  ⟨by decide,
   (C4_paths_from_thread_id cfgD pMain wSuccess "" "https://v.redd.it/abc" "/tmp/t1.mp4"
     (by decide)).1⟩

/-- Counterexample to C4 as stated: two distinct requests with the same
correlation identifier are downloaded to the same temp path. -/
theorem C4_counterexample :
    pDupA ≠ pDupB
    ∧ ExtCall.fetchCall "https://v.redd.it/aaa" "/tmp/dup.mp4"
        ∈ (mux_upload cfgD pDupA wSuccess "").calls
    ∧ ExtCall.fetchCall "https://v.redd.it/bbb" "/tmp/dup.mp4"
        ∈ (mux_upload cfgD pDupB wSuccess "").calls := by decide

/-- C5: when auth passes and the resolved source URL does not start with
`https://v.redd.it/`, the handler answers 400 and performs no external
call. -/
theorem C5_invalid_url_rejected (cfg : Config) (p : Payload) (w : World) (xt : String)
    (hauth : ¬ authFails cfg xt)
    (hurl : startsWithPy (resolveVredd p) "https://v.redd.it/" = false) :
    (mux_upload cfg p w xt).result = HResult.httpErr 400 "vredd_url inválida"
    ∧ (mux_upload cfg p w xt).calls = [] := by
  unfold mux_upload innerRun
  simp [hauth, hurl]

/-- Witness for C5 at a concrete off-host URL. -/
theorem C5_invalid_url_witness :
    (¬ authFails cfgD "")
    ∧ startsWithPy (resolveVredd pBadUrl) "https://v.redd.it/" = false
    ∧ ((mux_upload cfgD pBadUrl wEmpty "").result = HResult.httpErr 400 "vredd_url inválida"
        ∧ (mux_upload cfgD pBadUrl wEmpty "").calls = []) :=
  ⟨by decide, by decide, C5_invalid_url_rejected cfgD pBadUrl wEmpty "" (by decide) (by decide)⟩

/-- C6: at the failing input (no correlation identifier under any alias, and
a preflight that finds no media) the handler does not synthesize an
identifier: the 200 body carries `thread_id = null`. -/
theorem C6_absent_id_yields_null :
    pNoId.thread_id = none ∧ pNoId.reddit_id = none
    ∧ (mux_upload cfgD pNoId wEmpty "").result
        = HResult.body (errBody none "https://v.redd.it/noid" "unavailable_or_removed_preflight") := by
  decide

/-- C7: with a positive byte cap, a measured candidate size above the cap
yields the skipped/too-large body, the Publisher is never invoked, and the
size is read from the post-trim upload candidate. -/
theorem C7_size_guard (cfg : Config) (p : Payload) (w : World) (xt : String) (n : Nat)
    (hauth : ¬ authFails cfg xt)
    (hurl : startsWithPy (resolveVredd p) "https://v.redd.it/" = true)
    (hmedia : preflightHasMedia w.preflight = true)
    (hfetch : w.fetch = FetchOutcome.ok)
    (htrim : (need_trim_final cfg w && decide (cfg.max_duration_s > 0)) = true → w.trimOk = true)
    (hmb : cfg.max_bytes > 0)
    (hg : w.getsize = some n)
    (hn : (n : Int) > cfg.max_bytes) :
    (mux_upload cfg p w xt).result
      = HResult.body (errBody p.thread_id (resolveVredd p)
          ("skipped_large_file: " ++ toString n ++ "B > " ++ toString cfg.max_bytes ++ "B"))
    ∧ (∀ c ∈ (mux_upload cfg p w xt).calls, isUploadCall c = false)
    ∧ ExtCall.getsizeCall (upload_candidate cfg p w) ∈ (mux_upload cfg p w xt).calls := by
  have hi := inner_reaches_size cfg p w hurl hmedia hfetch htrim
  have hs := size_and_upload_skip cfg w p.thread_id (resolveVredd p)
    (upload_candidate cfg p w) (preCalls cfg p w) n hmb hg hn
  have hres : (innerRun cfg p w).res
      = Except.ok (errBody p.thread_id (resolveVredd p)
          ("skipped_large_file: " ++ toString n ++ "B > " ++ toString cfg.max_bytes ++ "B")) := by
    rw [hi, hs]
  have hcalls : (mux_upload cfg p w xt).calls
      = preCalls cfg p w ++ [ExtCall.getsizeCall (upload_candidate cfg p w)] := by
    rw [mux_calls cfg p w xt hauth, hi, hs]
  refine ⟨mux_res_ok cfg p w xt _ hauth hres, ?_, ?_⟩
  · rw [hcalls]
    exact preCalls_no_upload cfg p w _
  · rw [hcalls]
    simp

/-- Witness for C7: a 400 s video trimmed to 240 s still weighs 10 B against
a 5 B cap. -/
theorem C7_size_guard_witness :
    (¬ authFails cfgSize "")
    ∧ startsWithPy (resolveVredd pMain) "https://v.redd.it/" = true
    ∧ preflightHasMedia wTrimSkip.preflight = true
    ∧ wTrimSkip.fetch = FetchOutcome.ok
    ∧ ((need_trim_final cfgSize wTrimSkip && decide (cfgSize.max_duration_s > 0)) = true
        → wTrimSkip.trimOk = true)
    ∧ cfgSize.max_bytes > 0
    ∧ wTrimSkip.getsize = some 10
    ∧ ((10 : Nat) : Int) > cfgSize.max_bytes
    ∧ ((mux_upload cfgSize pMain wTrimSkip "").result
        = HResult.body (errBody pMain.thread_id (resolveVredd pMain)
            ("skipped_large_file: " ++ toString (10 : Nat) ++ "B > "
              ++ toString cfgSize.max_bytes ++ "B"))
      ∧ (∀ c ∈ (mux_upload cfgSize pMain wTrimSkip "").calls, isUploadCall c = false)
      ∧ ExtCall.getsizeCall (upload_candidate cfgSize pMain wTrimSkip)
          ∈ (mux_upload cfgSize pMain wTrimSkip "").calls) :=
  ⟨by decide, by decide, by decide, by decide, by decide, by decide, by decide, by decide,
   C7_size_guard cfgSize pMain wTrimSkip "" 10 (by decide) (by decide) (by decide) (by decide)
     (by decide) (by decide) (by decide) (by decide)⟩

/-- C8: the remote identifier handed to the hosting service is the fresh
`_short_id` draw of the world; two runs over the same world but arbitrary
payloads (in particular differing only in correlation identifier or source
URL) upload under the same generated identifier. -/
theorem C8_remote_id_independent (cfg : Config) (p1 p2 : Payload) (w : World)
    (xt1 xt2 u1 pr1 pid1 f1 u2 pr2 pid2 f2 : String)
    (h1 : ExtCall.uploadCall u1 pr1 pid1 f1 ∈ (mux_upload cfg p1 w xt1).calls)
    (h2 : ExtCall.uploadCall u2 pr2 pid2 f2 ∈ (mux_upload cfg p2 w xt2).calls) :
    pid1 = short_id w.rand 12 ∧ pid1 = pid2 :=
  ⟨upload_pid_fixed cfg p1 w xt1 u1 pr1 pid1 f1 h1,
   (upload_pid_fixed cfg p1 w xt1 u1 pr1 pid1 f1 h1).trans
     (upload_pid_fixed cfg p2 w xt2 u2 pr2 pid2 f2 h2).symm⟩

/-- Witness for C8: two runs differing in correlation id and source URL both
upload under the same drawn identifier. -/
theorem C8_remote_id_independent_witness :
    (ExtCall.uploadCall (up_url cfgD) cfgD.cld_preset "aaaaaaaaaaaa" "/tmp/t1.mp4"
        ∈ (mux_upload cfgD pMain wSuccess "").calls)
    ∧ (ExtCall.uploadCall (up_url cfgD) cfgD.cld_preset "aaaaaaaaaaaa" "/tmp/zz9.mp4"
        ∈ (mux_upload cfgD pAlt wSuccess "").calls)
    ∧ ("aaaaaaaaaaaa" = short_id wSuccess.rand 12 ∧ "aaaaaaaaaaaa" = "aaaaaaaaaaaa") :=
  ⟨by decide, by decide,
   C8_remote_id_independent cfgD pMain pAlt wSuccess "" "" (up_url cfgD) cfgD.cld_preset
     "aaaaaaaaaaaa" "/tmp/t1.mp4" (up_url cfgD) cfgD.cld_preset "aaaaaaaaaaaa" "/tmp/zz9.mp4"
     (by decide) (by decide)⟩

/-- C9 (amended): the catch-all places the exception's type and full text in
the response message, with no truncation. -/
theorem C9_unexpected_message_untruncated (cfg : Config) (p : Payload) (w : World)
    (xt en et : String)
    (hauth : ¬ authFails cfg xt)
    (hres : (innerRun cfg p w).res = Except.error (PyExn.exn en et)) :
    ∃ b, (mux_upload cfg p w xt).result = HResult.body b
      ∧ respErrMsg b = some ("unexpected_exception: " ++ en ++ ": " ++ et) :=
  ⟨_, mux_res_exn cfg p w xt en et hauth hres, rfl⟩

/-- Witness for C9's amended theorem at a concrete catch-all run. -/
theorem C9_unexpected_message_witness :
    (¬ authFails cfgD "")
    ∧ (innerRun cfgD pMain wJsonFail).res = Except.error (PyExn.exn "KeyError" "boom")
    ∧ ∃ b, (mux_upload cfgD pMain wJsonFail "").result = HResult.body b
        ∧ respErrMsg b = some ("unexpected_exception: " ++ "KeyError" ++ ": " ++ "boom") :=
  ⟨by decide, rfl,
   C9_unexpected_message_untruncated cfgD pMain wJsonFail "" "KeyError" "boom"
     (by decide) rfl⟩

/-- Counterexample to C9 as stated: no bound caps the catch-all message
length across exception texts - the message grows with the text. -/
theorem C9_counterexample :
    ¬ ∃ B : Nat, ∀ t : String, ∀ b : Resp,
        (mux_upload cfgD pMain (wJsonFailT t) "").result = HResult.body b →
        ∀ m, respErrMsg b = some m → m.length ≤ B := by
  rintro ⟨B, hB⟩
  have hlen := hB (String.mk (List.replicate (B + 1) 'a')) _
    (wJsonFailT_run (String.mk (List.replicate (B + 1) 'a'))) _ rfl
  rw [String.length_append] at hlen
  have hmk : (String.mk (List.replicate (B + 1) 'a')).length = B + 1 := by
    show (List.replicate (B + 1) 'a').length = B + 1
    simp
  rw [hmk] at hlen
  have h32 : ("unexpected_exception: KeyError: ").length = 32 := rfl
  rw [h32] at hlen
  omega

/-- C10 (amended): with a positive byte cap but a failing size read, the
guard is silently skipped - the size probe happens, no skipped/too-large
outcome is produced, and control proceeds to the upload step; the Publisher
is then actually invoked exactly when the candidate file can still be opened,
whereas a failing `open` (e.g. the file is missing) escapes to the catch-all
before the POST, so no upload request is made. -/
theorem C10_size_guard_best_effort (cfg : Config) (p : Payload) (w : World) (xt : String)
    (hauth : ¬ authFails cfg xt)
    (hurl : startsWithPy (resolveVredd p) "https://v.redd.it/" = true)
    (hmedia : preflightHasMedia w.preflight = true)
    (hfetch : w.fetch = FetchOutcome.ok)
    (htrim : (need_trim_final cfg w && decide (cfg.max_duration_s > 0)) = true → w.trimOk = true)
    (hmb : cfg.max_bytes > 0)
    (hg : w.getsize = none) :
    ExtCall.getsizeCall (upload_candidate cfg p w) ∈ (mux_upload cfg p w xt).calls
    ∧ (w.openOk = true →
        ExtCall.uploadCall (up_url cfg) cfg.cld_preset (short_id w.rand 12)
          (upload_candidate cfg p w) ∈ (mux_upload cfg p w xt).calls)
    ∧ (w.openOk = false →
        (∀ c ∈ (mux_upload cfg p w xt).calls, isUploadCall c = false)
        ∧ (mux_upload cfg p w xt).result
            = HResult.body (Resp.err (some (catchAllRid p w)) (resolveVredd p)
                ("unexpected_exception: " ++ w.openErrName ++ ": " ++ w.openErrText)
                (resolveVredd p))) := by
  have hi := inner_reaches_size cfg p w hurl hmedia hfetch htrim
  have hs := size_and_upload_sizefail cfg w p.thread_id (resolveVredd p)
    (upload_candidate cfg p w) (preCalls cfg p w) hmb hg
  refine ⟨?_, ?_, ?_⟩
  · rw [mux_calls cfg p w xt hauth, hi, hs]
    by_cases ho : w.openOk
    · rw [do_upload_calls cfg w p.thread_id (resolveVredd p) (upload_candidate cfg p w) _ ho]
      simp
    · have ho2 : w.openOk = false := by simpa using ho
      rw [do_upload_openfail cfg w p.thread_id (resolveVredd p) (upload_candidate cfg p w) _ ho2]
      simp
  · intro ho
    rw [mux_calls cfg p w xt hauth, hi, hs,
      do_upload_calls cfg w p.thread_id (resolveVredd p) (upload_candidate cfg p w) _ ho]
    simp
  · intro ho
    have hopen := do_upload_openfail cfg w p.thread_id (resolveVredd p)
      (upload_candidate cfg p w)
      (preCalls cfg p w ++ [ExtCall.getsizeCall (upload_candidate cfg p w)]) ho
    constructor
    · rw [mux_calls cfg p w xt hauth, hi, hs, hopen]
      exact preCalls_no_upload cfg p w _
    · have hres : (innerRun cfg p w).res
          = Except.error (PyExn.exn w.openErrName w.openErrText) := by
        rw [hi, hs, hopen]
      exact mux_res_exn cfg p w xt _ _ hauth hres

/-- Witness for C10's amended theorem at a concrete run whose size read fails
but whose candidate file still opens. -/
theorem C10_size_guard_best_effort_witness :
    (¬ authFails cfgSize "")
    ∧ startsWithPy (resolveVredd pMain) "https://v.redd.it/" = true
    ∧ preflightHasMedia wSizeFail.preflight = true
    ∧ wSizeFail.fetch = FetchOutcome.ok
    ∧ cfgSize.max_bytes > 0
    ∧ wSizeFail.getsize = none
    ∧ wSizeFail.openOk = true
    ∧ (ExtCall.getsizeCall (upload_candidate cfgSize pMain wSizeFail)
          ∈ (mux_upload cfgSize pMain wSizeFail "").calls
      ∧ ExtCall.uploadCall (up_url cfgSize) cfgSize.cld_preset (short_id wSizeFail.rand 12)
          (upload_candidate cfgSize pMain wSizeFail)
          ∈ (mux_upload cfgSize pMain wSizeFail "").calls) :=
  ⟨by decide, by decide, by decide, by decide, by decide, by decide, by decide,
   ⟨(C10_size_guard_best_effort cfgSize pMain wSizeFail "" (by decide) (by decide) (by decide)
       (by decide) (by decide) (by decide) (by decide)).1,
    (C10_size_guard_best_effort cfgSize pMain wSizeFail "" (by decide) (by decide) (by decide)
       (by decide) (by decide) (by decide) (by decide)).2.1 (by decide)⟩⟩

/-- Counterexample to C10 as stated: at the claim's own example - the
candidate file is missing, so the size read raises - the guard is skipped but
the Publisher is NOT invoked: `open` raises before the POST and the run ends
in the catch-all body, with no upload call in the trace. -/
theorem C10_counterexample :
    cfgSize.max_bytes > 0
    ∧ wOpenFail.getsize = none
    ∧ ExtCall.getsizeCall "/tmp/t1.mp4" ∈ (mux_upload cfgSize pMain wOpenFail "").calls
    ∧ (∀ c ∈ (mux_upload cfgSize pMain wOpenFail "").calls, isUploadCall c = false)
    ∧ (mux_upload cfgSize pMain wOpenFail "").result
        = HResult.body (Resp.err (some "t1") "https://v.redd.it/abc"
            "unexpected_exception: FileNotFoundError: No such file or directory"
            "https://v.redd.it/abc") := by decide

end VideoWorker
